import Mathlib

/-!
Shallow embedding of the credential-lifecycle core of the `ivcap-cli`
command-line client (files `cmd/login.go` and the shared `cmd` config file).

Modelling conventions:
* Go `time.Time` values are modelled as `Int` seconds since the epoch;
  `t1.After(t2)` becomes `t2 < t1` and `t.Add(d seconds)` becomes `t + d`.
* Network I/O is modelled by passing the response each HTTP call would
  receive as an explicit input, and recording which requests a run performs
  as a `List NetCall`.
* `cobra.CheckErr(msg)` (which prints and exits the process) and Go
  `panic(n)` are modelled as distinct terminal outcomes, separate from a
  normal error return.
-/

/-- A persisted deployment context (struct `Context` in the shared config
file).  Times are `Int` seconds. -/
structure Context where
  apiVersion : Int
  name : String
  url : String
  accountID : String
  providerID : String
  host : String
  accountName : String
  accountNickName : String
  email : String
  accessToken : String
  accessTokenExpiry : Int
  refreshToken : String
  deriving Repr, DecidableEq

/-- The whole persisted configuration record (struct `Config`). -/
structure Config where
  version : String
  activeContext : String
  contexts : List Context
  deriving Repr, DecidableEq

/-- An identity-provider descriptor (struct `AuthProvider` in
`cmd/login.go`); the lower-case Go fields are transient per-flow values. -/
structure AuthProvider where
  id : String
  loginURL : String
  tokenURL : String
  codeURL : String
  jwksURL : String
  clientID : String
  audience : String
  scopes : String
  grantType : String
  deriving Repr, DecidableEq

/-- The typed part of the discovery document (struct `AuthInfo`).  The Go
`map[string]AuthProvider` is modelled as an association list. -/
structure AuthInfo where
  version : String
  defaultProviderId : String
  authProviders : List (String × AuthProvider)
  deriving Repr, DecidableEq

/-- `AuthInfo.GetDefaultProvider`: look the default provider id up in the
provider map; missing id is the error `Default Provider Id does not exist`. -/
def AuthInfo.GetDefaultProvider (authInfo : AuthInfo) : Except String AuthProvider :=
  match authInfo.authProviders.lookup authInfo.defaultProviderId with
  | some defaultProvider => .ok defaultProvider
  | none => .error "Default Provider Id does not exist"

/-- A scalar YAML value as it comes out of the untyped
`map[string]interface{}` decode; only the shapes the code compares against
matter (the `versionNum == 1` interface comparison). -/
inductive YamlVal where
  | vint (n : Int)
  | vstr (s : String)
  deriving Repr, DecidableEq

/-- The fields of the untyped discovery document that `getLoginInformation`
inspects: the `fault` flag, the `version` entry (absent = key missing), and
the result of re-marshalling `responseMap["auth"]` into `AuthInfo`
(`none` = the marshal/unmarshal round trip failed). -/
structure DiscoveryDoc where
  fault : Bool
  version : Option YamlVal
  auth : Option AuthInfo
  deriving Repr, DecidableEq

/-- What the `http.Get(ctxt.URL + "/1/authinfo.yaml")` call plus the YAML
decode produced: a transport error, an undecodable body, or a decoded
document. -/
inductive FetchResult where
  | transportError (msg : String)
  | decodeError
  | body (doc : DiscoveryDoc)
  deriving Repr, DecidableEq

/-- Possible terminations of `getLoginInformation`: a provider, an error
return, or a Go `panic`. -/
inductive DiscoveryOutcome where
  | ok (p : AuthProvider)
  | err (msg : String)
  | goPanic (code : Int)
  deriving Repr, DecidableEq

/-- `getLoginInformation` (lines 172-237 of `cmd/login.go`), for a non-nil
context, as a function of the fetched document.  Note the source executes
`panic(1)` when the `version` key is missing; the `return nil, fmt.Errorf`
after it is unreachable. -/
def getLoginInformation (r : FetchResult) : DiscoveryOutcome :=
  match r with
  | .transportError e => .err ("Cannot request login info - " ++ e)
  | .decodeError => .err "unknown response from Login Service"
  | .body doc =>
    if doc.fault then .err "login service has returned a fault"
    else
      match doc.version with
      | none => .goPanic 1
      | some versionNum =>
        if versionNum = YamlVal.vint 1 then
          match doc.auth with
          | none => .err "could not process login service response (auth providers)"
          | some authInfo =>
            if authInfo.authProviders.length ≠ 0 then
              match authInfo.GetDefaultProvider with
              | .ok defaultProvider => .ok defaultProvider
              | .error _ => .err "Login Service returned invalid data (No Default Provider)"
            else .err "Login Service returned invalid data (No Providers)"
        else .err "client out of date: Please update this application"

/-- `SetContext` on the context list: replace the first entry whose name
matches and stop; `none` when no entry matches (the `failIfNotExist` abort
for the `true` argument used by the login/refresh flows). -/
def setContextList (ctxt : Context) : List Context → Option (List Context)
  | [] => none
  | c :: rest =>
    if c.name = ctxt.name then some (ctxt :: rest)
    else (setContextList ctxt rest).map (c :: ·)

/-- `SetContext(ctxt, true)`: read the config, overwrite the matching
context entry, write the config back; `none` models the
`attempting to set/update non existing context` abort. -/
def SetContext (ctxt : Context) (config : Config) : Option Config :=
  (setContextList ctxt config.contexts).map
    fun cs => { config with contexts := cs }

/-- The decoded body of a token-endpoint response (struct
`deviceTokenResponse`: the embedded `oauth2.Token` fields the code uses,
plus the extra JSON fields). -/
structure TokenResponse where
  accessToken : String
  refreshToken : String
  idToken : String
  scope : String
  expiresIn : Int
  errorString : String
  deriving Repr, DecidableEq

/-- A device-code session (struct `DeviceCode`); `interval` is the mutable
poll interval in seconds. -/
structure DeviceCode where
  deviceCode : String
  userCode : String
  verificationURL : String
  verificationURLComplete : String
  expiresIn : Int
  interval : Int
  deriving Repr, DecidableEq

/-- What one `http.PostForm` to the token endpoint produced: a transport
error, or an HTTP status together with the JSON decode of the body
(`Except.error` = `jsonDecoder.Decode` failed). -/
inductive HttpResult where
  | transportError (msg : String)
  | response (status : Nat) (body : Except String TokenResponse)
  deriving Repr

/-- The effect of one iteration of the `waitForTokens` polling loop on the
loop state: keep polling with a (possibly updated) interval, succeed with
the decoded response, or terminate with an error. -/
inductive StepResult where
  | again (newInterval : Int)
  | success (t : TokenResponse)
  | failure (msg : String)
  deriving Repr, DecidableEq

/-- One iteration of the `waitForTokens` loop body (lines 270-336 of
`cmd/login.go`), given the current poll interval and the HTTP result of
this iteration's POST.  The Go `switch` has no `default` case, so an
unrecognized non-empty error code falls through to the sleep and the next
poll. -/
def pollStep (interval : Int) (r : HttpResult) : StepResult :=
  match r with
  | .transportError e => .failure ("Cannot request tokens - " ++ e)
  | .response status body =>
    if status ≠ 200 ∧ status ≠ 403 then
      .failure ("HTTP Request Error: Token Request returned " ++ toString status)
    else
      match body with
      | .error e => .failure ("Cannot decode token response - " ++ e)
      | .ok tokenResponse =>
        match tokenResponse.errorString with
        | "authorization_pending" => .again interval
        | "slow_down" => .again (interval * 2)
        | "expired_token" =>
          .failure "The login process was not completed in time - please login again"
        | "access_denied" => .failure "Could not login - access was denied"
        | "invalid_grant" => .failure "Could not login - invalid credentials"
        | "" => .success tokenResponse
        | _ => .again interval

/-- Result of running the polling loop against a finite script of HTTP
responses; `exhausted` marks that the real loop would still be polling when
the script ran out. -/
inductive PollOutcome where
  | ok (t : TokenResponse)
  | err (msg : String)
  | exhausted (interval : Int)
  deriving Repr, DecidableEq

/-- `waitForTokens` (lines 264-339 of `cmd/login.go`) run over a script of
per-iteration HTTP results, threading the poll interval through
`pollStep`. -/
def waitForTokens (interval : Int) : List HttpResult → PollOutcome
  | [] => .exhausted interval
  | r :: rest =>
    match pollStep interval r with
    | .success t => .ok t
    | .failure m => .err m
    | .again i => waitForTokens i rest

/-- Number of token-endpoint HTTP POSTs `waitForTokens` performs on a
script: one per iteration entered, none after a terminal step. -/
def pollCalls (interval : Int) : List HttpResult → Nat
  | [] => 0
  | r :: rest =>
    match pollStep interval r with
    | .again i => 1 + pollCalls i rest
    | _ => 1

/-- The profile claims of a verified identity token (struct
`CustomIdClaims`, the fields the code copies into the context). -/
structure CustomIdClaims where
  name : String
  nickname : String
  email : String
  accountID : String
  deriving Repr, DecidableEq

/-- What `jwt.ParseWithClaims` produced for the identity token: one of the
three error classes the code distinguishes, or a verified token with its
claims. -/
inductive IdTokenResult where
  | malformed (msg : String)
  | expired (msg : String)
  | invalid (msg : String)
  | valid (claims : CustomIdClaims)
  deriving Repr, DecidableEq

/-- `ParseIDToken` (lines 341-372 of `cmd/login.go`): on a verified token,
copy the profile claims into the context and return no error; on any
verification failure, leave the context untouched and return the
corresponding error.  Returns the (possibly updated) context together with
the optional error, since `refreshAccessToken` ignores the error while
`login` checks it. -/
def ParseIDToken (r : IdTokenResult) (ctxt : Context) : Context × Option String :=
  match r with
  | .malformed m => (ctxt, some ("Malformed ID Token Received - " ++ m))
  | .expired m => (ctxt, some ("Expired ID Token Received - " ++ m))
  | .invalid m => (ctxt, some ("Cannot verify ID token - " ++ m))
  | .valid claims =>
    ({ ctxt with
        accountName := claims.name
        email := claims.email
        accountNickName := claims.nickname
        accountID := claims.accountID }, none)

/-- The HTTP requests the flows can perform, for counting network calls. -/
inductive NetCall where
  | authInfoGet
  | tokenPost
  | jwksGet
  deriving Repr, DecidableEq

/-- Terminal shape of a `refreshAccessToken` run: a normal
`return token, err` pair, a `cobra.CheckErr` process abort, or a Go
panic propagated from discovery. -/
inductive RefreshOutcome where
  | ret (token : String) (error : Option String)
  | abort (msg : String)
  | goPanic (code : Int)
  deriving Repr, DecidableEq

/-- A `refreshAccessToken` run: its outcome, the HTTP requests it made (in
order), and the contexts it passed to `SetContext` (in order). -/
structure RefreshResult where
  outcome : RefreshOutcome
  calls : List NetCall
  writes : List Context
  deriving Repr, DecidableEq

/-- The environment a `refreshAccessToken` run interacts with: the two
`time.Now()` reads, the discovery fetch, the token-endpoint POST, and the
identity-token verification. -/
structure RefreshEnv where
  now : Int
  fetch : FetchResult
  tokenPost : HttpResult
  now2 : Int
  idToken : IdTokenResult
  deriving Repr

/-- `refreshAccessToken` (lines 105-170 of `cmd/login.go`) for the active
context `ctxt`.  Faithful points: the `switch` on the refresh response has
no `default` case, so both `authorization_pending` and any unrecognized
error code fall through to the final `return ctxt.AccessToken, nil`; an
empty token URL or client id skips the POST entirely; only the empty error
code writes the store. -/
def refreshAccessToken (env : RefreshEnv) (ctxt : Context) : RefreshResult :=
  if ctxt.accessTokenExpiry < env.now then
    if ctxt.refreshToken = "" then
      { outcome := .ret ""
          (some "Could not login - invalid credentials. Please use the login command to refresh your credentials")
        calls := [], writes := [] }
    else
      match getLoginInformation env.fetch with
      | .goPanic n => { outcome := .goPanic n, calls := [.authInfoGet], writes := [] }
      | .err e =>
        { outcome := .abort ("Could not connect to " ++ ctxt.url ++ " - " ++ e)
          calls := [.authInfoGet], writes := [] }
      | .ok authProvider0 =>
        let authProvider := { authProvider0 with grantType := "refresh_token" }
        if authProvider.tokenURL ≠ "" ∧ authProvider.clientID ≠ "" then
          match env.tokenPost with
          | .transportError e =>
            { outcome := .ret "" (some ("Cannot refresh access token - " ++ e))
              calls := [.authInfoGet, .tokenPost], writes := [] }
          | .response _ (.error e) =>
            { outcome := .ret "" (some ("Cannot decode token response - " ++ e))
              calls := [.authInfoGet, .tokenPost], writes := [] }
          | .response _ (.ok tokenResponse) =>
            match tokenResponse.errorString with
            | "authorization_pending" =>
              { outcome := .ret ctxt.accessToken none
                calls := [.authInfoGet, .tokenPost], writes := [] }
            | "expired_token" =>
              { outcome := .ret ""
                  (some "The login process was not completed in time - please login again")
                calls := [.authInfoGet, .tokenPost], writes := [] }
            | "access_denied" =>
              { outcome := .ret "" (some "Could not login - access was denied")
                calls := [.authInfoGet, .tokenPost], writes := [] }
            | "invalid_grant" =>
              { outcome := .ret ""
                  (some "Could not login - expired credentials. Please use the login command to refresh your credentials")
                calls := [.authInfoGet, .tokenPost], writes := [] }
            | "" =>
              let c1 := { ctxt with
                accessToken := tokenResponse.accessToken
                accessTokenExpiry := env.now2 + (tokenResponse.expiresIn - 10) }
              let c2 := (ParseIDToken env.idToken c1).1
              { outcome := .ret c2.accessToken none
                calls := [.authInfoGet, .tokenPost, .jwksGet], writes := [c2] }
            | _ =>
              { outcome := .ret ctxt.accessToken none
                calls := [.authInfoGet, .tokenPost], writes := [] }
        else
          { outcome := .ret ctxt.accessToken none, calls := [.authInfoGet], writes := [] }
  else
    { outcome := .ret ctxt.accessToken none, calls := [], writes := [] }

/-- What the device-code `http.PostForm` produced. -/
inductive DeviceCodeResult where
  | transportError (msg : String)
  | response (status : Nat) (body : Except String DeviceCode)
  deriving Repr

/-- Terminations of `requestDeviceCode`: a session, a returned error, or a
`cobra.CheckErr` abort (the transport-error branch calls `CheckErr`
directly). -/
inductive DeviceCodeOutcome where
  | ok (d : DeviceCode)
  | err (msg : String)
  | abort (msg : String)
  deriving Repr

/-- `requestDeviceCode` (lines 239-262 of `cmd/login.go`). -/
def requestDeviceCode (r : DeviceCodeResult) : DeviceCodeOutcome :=
  match r with
  | .transportError e => .abort ("Cannot request authentication device code - " ++ e)
  | .response status body =>
    if status ≠ 200 then
      .err ("HTTP Request Error: Device code request returned " ++ toString status)
    else
      match body with
      | .error e => .err e
      | .ok deviceCode => .ok deviceCode

/-- Terminal shape of a `login` command run. `stillPolling` marks a run
whose scripted poll responses ran out while the real loop would continue. -/
inductive LoginOutcome where
  | completed
  | abort (msg : String)
  | goPanic (code : Int)
  | stillPolling
  deriving Repr, DecidableEq

/-- A `login` run: its outcome and the contexts passed to `SetContext`. -/
structure LoginResult where
  outcome : LoginOutcome
  writes : List Context
  deriving Repr, DecidableEq

/-- The environment a `login` run interacts with: the discovery fetch, the
device-code POST, the per-iteration token POST results, the identity-token
verification, and the `time.Now()` read at the expiry computation. -/
structure LoginEnv where
  fetch : FetchResult
  deviceCodeResp : DeviceCodeResult
  pollScript : List HttpResult
  idToken : IdTokenResult
  now2 : Int
  deriving Repr

/-- The `login` command (lines 374-436 of `cmd/login.go`).  Faithful
points: every error from discovery, device-code request, polling, or
`ParseIDToken` goes through `cobra.CheckErr` and aborts before any store
write; only the full success path updates the context's access token,
expiry (`now + (expires_in - 10)` seconds), refresh token and calls
`SetContext`. -/
def login (env : LoginEnv) (activeCtxt : Option Context) : LoginResult :=
  match activeCtxt with
  | none =>
    { outcome := .abort "Invalid config set. Please set a valid config with the config command."
      writes := [] }
  | some ctxt =>
    match getLoginInformation env.fetch with
    | .goPanic n => { outcome := .goPanic n, writes := [] }
    | .err e =>
      { outcome := .abort ("Could not connect to " ++ ctxt.url ++ " to login - " ++ e)
        writes := [] }
    | .ok authProvider0 =>
      let authProvider := { authProvider0 with
        scopes := "openid profile email offline_access"
        grantType := "urn:ietf:params:oauth:grant-type:device_code"
        audience := "https://api.ivcap.net/" }
      match requestDeviceCode env.deviceCodeResp with
      | .abort m => { outcome := .abort m, writes := [] }
      | .err e =>
        { outcome := .abort ("Cannot request authentication device code - " ++ e)
          writes := [] }
      | .ok deviceCode =>
        match waitForTokens deviceCode.interval env.pollScript with
        | .exhausted _ => { outcome := .stillPolling, writes := [] }
        | .err e =>
          { outcome := .abort ("Cannot request authorisation tokens - " ++ e)
            writes := [] }
        | .ok tokenResponse =>
          let parsed := ParseIDToken env.idToken ctxt
          match parsed.2 with
          | some e =>
            { outcome := .abort ("Cannot parse identity information - " ++ e)
              writes := [] }
          | none =>
            let c2 := { parsed.1 with
              accessToken := tokenResponse.accessToken
              accessTokenExpiry := env.now2 + (tokenResponse.expiresIn - 10)
              refreshToken := tokenResponse.refreshToken }
            { outcome := .completed, writes := [c2] }

/-- C1: in each poll iteration of `waitForTokens` whose response decodes
and reaches the error-code switch (HTTP status 200 or 403 — the code keeps
403 because Auth0 answers `StatusForbidden` while authorization is
pending), the error code drives exactly the specified transition:
`authorization_pending` keeps polling with the interval unchanged;
`slow_down` doubles the interval and polling continues; `expired_token`,
`access_denied` and `invalid_grant` each terminate at once with a distinct
error and no further HTTP calls (exactly one call is made, whatever the
rest of the script holds); an empty error code returns the decoded
response as success. -/
theorem waitForTokens_pollTransitions (interval : Int) (rest : List HttpResult)
    (st : Nat) (b : TokenResponse) (hst : st = 200 ∨ st = 403) :
    (b.errorString = "authorization_pending" →
      pollStep interval (.response st (.ok b)) = .again interval ∧
      waitForTokens interval (.response st (.ok b) :: rest) =
        waitForTokens interval rest) ∧
    (b.errorString = "slow_down" →
      pollStep interval (.response st (.ok b)) = .again (interval * 2) ∧
      waitForTokens interval (.response st (.ok b) :: rest) =
        waitForTokens (interval * 2) rest) ∧
    (b.errorString = "expired_token" →
      waitForTokens interval (.response st (.ok b) :: rest) =
        .err "The login process was not completed in time - please login again" ∧
      pollCalls interval (.response st (.ok b) :: rest) = 1) ∧
    (b.errorString = "access_denied" →
      waitForTokens interval (.response st (.ok b) :: rest) =
        .err "Could not login - access was denied" ∧
      pollCalls interval (.response st (.ok b) :: rest) = 1) ∧
    (b.errorString = "invalid_grant" →
      waitForTokens interval (.response st (.ok b) :: rest) =
        .err "Could not login - invalid credentials" ∧
      pollCalls interval (.response st (.ok b) :: rest) = 1) ∧
    (b.errorString = "" →
      waitForTokens interval (.response st (.ok b) :: rest) = .ok b) := by
  have hok : ¬ (st ≠ 200 ∧ st ≠ 403) := by
    rcases hst with rfl | rfl <;> simp
  refine ⟨fun h => ?_, fun h => ?_, fun h => ?_, fun h => ?_, fun h => ?_, fun h => ?_⟩ <;>
    simp [pollStep, waitForTokens, pollCalls, hok, h]

/-- A sample decoded token-endpoint response carrying the error code `e`. -/
def sampleTokenResponse (e : String) : TokenResponse :=
  { accessToken := "AT1", refreshToken := "RT1", idToken := "IDT1"
    scope := "openid", expiresIn := 3600, errorString := e }

/-- Witness for C1: every branch of the transition theorem exercised at a
concrete interval and response, including the Auth0-style 403 status for
the pending and `slow_down` iterations. -/
theorem waitForTokens_pollTransitions_witness :
    pollStep 5 (.response 403 (.ok (sampleTokenResponse "authorization_pending"))) =
      .again 5 ∧
    pollStep 5 (.response 403 (.ok (sampleTokenResponse "slow_down"))) = .again 10 ∧
    waitForTokens 5 [.response 200 (.ok (sampleTokenResponse "expired_token"))] =
      .err "The login process was not completed in time - please login again" ∧
    pollCalls 5 [.response 200 (.ok (sampleTokenResponse "expired_token"))] = 1 ∧
    waitForTokens 5 [.response 403 (.ok (sampleTokenResponse "access_denied"))] =
      .err "Could not login - access was denied" ∧
    waitForTokens 5 [.response 200 (.ok (sampleTokenResponse "invalid_grant"))] =
      .err "Could not login - invalid credentials" ∧
    waitForTokens 5 [.response 200 (.ok (sampleTokenResponse ""))] =
      .ok (sampleTokenResponse "") := by
  refine ⟨?_, ?_, ?_, ?_, ?_, ?_, ?_⟩
  · exact ((waitForTokens_pollTransitions 5 [] 403
      (sampleTokenResponse "authorization_pending") (Or.inr rfl)).1 rfl).1
  · exact ((waitForTokens_pollTransitions 5 [] 403
      (sampleTokenResponse "slow_down") (Or.inr rfl)).2.1 rfl).1
  · exact ((waitForTokens_pollTransitions 5 [] 200
      (sampleTokenResponse "expired_token") (Or.inl rfl)).2.2.1 rfl).1
  · exact ((waitForTokens_pollTransitions 5 [] 200
      (sampleTokenResponse "expired_token") (Or.inl rfl)).2.2.1 rfl).2
  · exact ((waitForTokens_pollTransitions 5 [] 403
      (sampleTokenResponse "access_denied") (Or.inr rfl)).2.2.2.1 rfl).1
  · exact ((waitForTokens_pollTransitions 5 [] 200
      (sampleTokenResponse "invalid_grant") (Or.inl rfl)).2.2.2.2.1 rfl).1
  · exact (waitForTokens_pollTransitions 5 [] 200
      (sampleTokenResponse "") (Or.inl rfl)).2.2.2.2.2 rfl

/-- C2: when the stored expiry is still in the future, `refreshAccessToken`
performs zero network calls, writes nothing to the store, and returns the
stored access token with no error. -/
theorem refreshAccessToken_fastPath (env : RefreshEnv) (ctxt : Context)
    (h : env.now < ctxt.accessTokenExpiry) :
    refreshAccessToken env ctxt =
      { outcome := .ret ctxt.accessToken none, calls := [], writes := [] } := by
  have hlt : ¬ ctxt.accessTokenExpiry < env.now := by omega
  simp [refreshAccessToken, hlt]

/-- A sample persisted context used to instantiate the flow theorems. -/
def sampleContext : Context :=
  { apiVersion := 1, name := "dev", url := "https://api.example.org"
    accountID := "acc-1", providerID := "p1", host := ""
    accountName := "Ada", accountNickName := "ada", email := "ada@example.org"
    accessToken := "staleAT", accessTokenExpiry := 100, refreshToken := "RT0" }

/-- A sample refresh environment; the individual fields are irrelevant on
the fast path. -/
def sampleFastEnv : RefreshEnv :=
  { now := 50, fetch := .decodeError, tokenPost := .transportError "unused"
    now2 := 50, idToken := .invalid "unused" }

/-- Witness for C2 at a concrete context whose expiry (100) is after the
current time (50). -/
theorem refreshAccessToken_fastPath_witness :
    sampleFastEnv.now < sampleContext.accessTokenExpiry ∧
    refreshAccessToken sampleFastEnv sampleContext =
      { outcome := .ret sampleContext.accessToken none, calls := [], writes := [] } :=
  ⟨by decide, refreshAccessToken_fastPath sampleFastEnv sampleContext (by decide)⟩

/-- C3: a version-1 discovery document with a non-empty provider map whose
default-provider-id names an entry makes `getLoginInformation` return
exactly that entry; any present version value other than the integer 1
yields the `client out of date: Please update this application` error. -/
theorem getLoginInformation_versionGate :
    (∀ (doc : DiscoveryDoc) (ai : AuthInfo) (p : AuthProvider),
      doc.fault = false →
      doc.version = some (YamlVal.vint 1) →
      doc.auth = some ai →
      ai.authProviders ≠ [] →
      ai.authProviders.lookup ai.defaultProviderId = some p →
      getLoginInformation (.body doc) = .ok p) ∧
    (∀ (doc : DiscoveryDoc) (v : YamlVal),
      doc.fault = false →
      doc.version = some v →
      v ≠ YamlVal.vint 1 →
      getLoginInformation (.body doc) =
        .err "client out of date: Please update this application") := by
  constructor
  · intro doc ai p hf hv ha hne hlook
    simp [getLoginInformation, AuthInfo.GetDefaultProvider, hf, hv, ha, hne, hlook]
  · intro doc v hf hv hne
    simp [getLoginInformation, hf, hv, hne]

/-- A sample provider entry for the discovery witnesses. -/
def sampleProvider : AuthProvider :=
  { id := "p1", loginURL := "https://idp.example.org/login"
    tokenURL := "https://idp.example.org/token"
    codeURL := "https://idp.example.org/code"
    jwksURL := "https://idp.example.org/jwks"
    clientID := "cid-1", audience := "", scopes := "", grantType := "" }

/-- A sample version-1 discovery document whose default provider is `p1`. -/
def sampleDoc : DiscoveryDoc :=
  { fault := false, version := some (.vint 1)
    auth := some { version := "", defaultProviderId := "p1"
                   authProviders := [("p1", sampleProvider)] } }

/-- Witness for C3: the version-1 document returns provider `p1`; the same
document with version 2 fails with the update-the-client error. -/
theorem getLoginInformation_versionGate_witness :
    getLoginInformation (.body sampleDoc) = .ok sampleProvider ∧
    getLoginInformation (.body { sampleDoc with version := some (.vint 2) }) =
      .err "client out of date: Please update this application" :=
  ⟨getLoginInformation_versionGate.1 sampleDoc
      { version := "", defaultProviderId := "p1"
        authProviders := [("p1", sampleProvider)] }
      sampleProvider rfl rfl rfl (by decide) (by decide),
   getLoginInformation_versionGate.2
      { sampleDoc with version := some (.vint 2) } (.vint 2) rfl rfl (by decide)⟩

/-- `ParseIDToken` never changes the access token: it only touches the
identity fields. -/
theorem ParseIDToken_fst_accessToken (r : IdTokenResult) (c : Context) :
    (ParseIDToken r c).1.accessToken = c.accessToken := by
  cases r <;> simp [ParseIDToken]

/-- `ParseIDToken` never changes the stored expiry timestamp. -/
theorem ParseIDToken_fst_accessTokenExpiry (r : IdTokenResult) (c : Context) :
    (ParseIDToken r c).1.accessTokenExpiry = c.accessTokenExpiry := by
  cases r <;> simp [ParseIDToken]

/-- `ParseIDToken` never changes the refresh token. -/
theorem ParseIDToken_fst_refreshToken (r : IdTokenResult) (c : Context) :
    (ParseIDToken r c).1.refreshToken = c.refreshToken := by
  cases r <;> simp [ParseIDToken]

/-- C4: on every successful token response (empty error code), both the
refresh flow and the interactive login flow persist exactly one context
whose expiry is the `time.Now()` of the update plus `expires_in - 10`
seconds; in particular `expires_in = 3600` persists `now + 3590`. -/
theorem persistedExpiry_now_plus_lifetime_minus_ten :
    (∀ (env : RefreshEnv) (ctxt : Context) (ap : AuthProvider) (st : Nat)
        (tr : TokenResponse),
      ctxt.accessTokenExpiry < env.now →
      ctxt.refreshToken ≠ "" →
      getLoginInformation env.fetch = .ok ap →
      ap.tokenURL ≠ "" → ap.clientID ≠ "" →
      env.tokenPost = .response st (.ok tr) →
      tr.errorString = "" →
      (refreshAccessToken env ctxt).writes.map Context.accessTokenExpiry =
          [env.now2 + (tr.expiresIn - 10)] ∧
        (tr.expiresIn = 3600 →
          (refreshAccessToken env ctxt).writes.map Context.accessTokenExpiry =
            [env.now2 + 3590])) ∧
    (∀ (env : LoginEnv) (ctxt : Context) (ap : AuthProvider) (dc : DeviceCode)
        (tr : TokenResponse),
      getLoginInformation env.fetch = .ok ap →
      requestDeviceCode env.deviceCodeResp = .ok dc →
      waitForTokens dc.interval env.pollScript = .ok tr →
      (ParseIDToken env.idToken ctxt).2 = none →
      (login env (some ctxt)).writes.map Context.accessTokenExpiry =
          [env.now2 + (tr.expiresIn - 10)] ∧
        (tr.expiresIn = 3600 →
          (login env (some ctxt)).writes.map Context.accessTokenExpiry =
            [env.now2 + 3590])) := by
  constructor
  · intro env ctxt ap st tr hx hr hd ht hc hp he
    have hmain : (refreshAccessToken env ctxt).writes.map Context.accessTokenExpiry =
        [env.now2 + (tr.expiresIn - 10)] := by
      simp [refreshAccessToken, hx, hr, hd, ht, hc, hp, he,
        ParseIDToken_fst_accessTokenExpiry]
    refine ⟨hmain, fun h3600 => ?_⟩
    rw [hmain, h3600]
    norm_num
  · intro env ctxt ap dc tr hd hdc hw hid
    have hmain : (login env (some ctxt)).writes.map Context.accessTokenExpiry =
        [env.now2 + (tr.expiresIn - 10)] := by
      simp [login, hd, hdc, hw, hid]
    refine ⟨hmain, fun h3600 => ?_⟩
    rw [hmain, h3600]
    norm_num

/-- The verified identity claims used in the sample environments. -/
def sampleClaims : CustomIdClaims :=
  { name := "Ada", nickname := "ada", email := "ada@example.org"
    accountID := "acc-1" }

/-- A refresh environment whose discovery, token POST (success,
`expires_in = 3600`), and identity verification all succeed. -/
def sampleRefreshEnvOK : RefreshEnv :=
  { now := 200, fetch := .body sampleDoc
    tokenPost := .response 200 (.ok (sampleTokenResponse "")), now2 := 1000
    idToken := .valid sampleClaims }

/-- The device-code session used in the sample login environment. -/
def sampleDeviceCode : DeviceCode :=
  { deviceCode := "dc-1", userCode := "WXYZ-ABCD"
    verificationURL := "https://idp.example.org/activate"
    verificationURLComplete := "https://idp.example.org/activate?user_code=WXYZ-ABCD"
    expiresIn := 900, interval := 5 }

/-- A login environment whose discovery, device-code request, single-poll
success (`expires_in = 3600`), and identity verification all succeed. -/
def sampleLoginEnvOK : LoginEnv :=
  { fetch := .body sampleDoc
    deviceCodeResp := .response 200 (.ok sampleDeviceCode)
    pollScript := [.response 200 (.ok (sampleTokenResponse ""))]
    idToken := .valid sampleClaims
    now2 := 2000 }

/-- Witness for C4: with `expires_in = 3600`, the refresh flow persists
expiry `1000 + 3590` and the login flow persists expiry `2000 + 3590`. -/
theorem persistedExpiry_now_plus_lifetime_minus_ten_witness :
    (refreshAccessToken sampleRefreshEnvOK sampleContext).writes.map
        Context.accessTokenExpiry = [(4590 : Int)] ∧
    (login sampleLoginEnvOK (some sampleContext)).writes.map
        Context.accessTokenExpiry = [(5590 : Int)] := by
  constructor
  · have h := (persistedExpiry_now_plus_lifetime_minus_ten.1 sampleRefreshEnvOK
      sampleContext sampleProvider 200 (sampleTokenResponse "")
      (by decide) (by decide) rfl (by decide) (by decide) rfl rfl).2 rfl
    simpa [sampleRefreshEnvOK] using h
  · have h := (persistedExpiry_now_plus_lifetime_minus_ten.2 sampleLoginEnvOK
      sampleContext sampleProvider sampleDeviceCode (sampleTokenResponse "")
      rfl rfl rfl rfl).2 rfl
    simpa [sampleLoginEnvOK] using h

/-- C5: a refresh whose token-endpoint response carries error code
`invalid_grant` returns the re-login error and performs no store write. -/
theorem refreshAccessToken_invalidGrant (env : RefreshEnv) (ctxt : Context)
    (ap : AuthProvider) (st : Nat) (tr : TokenResponse)
    (hx : ctxt.accessTokenExpiry < env.now)
    (hr : ctxt.refreshToken ≠ "")
    (hd : getLoginInformation env.fetch = .ok ap)
    (ht : ap.tokenURL ≠ "") (hc : ap.clientID ≠ "")
    (hp : env.tokenPost = .response st (.ok tr))
    (he : tr.errorString = "invalid_grant") :
    refreshAccessToken env ctxt =
      { outcome := .ret ""
          (some "Could not login - expired credentials. Please use the login command to refresh your credentials")
        calls := [.authInfoGet, .tokenPost], writes := [] } := by
  simp [refreshAccessToken, hx, hr, hd, ht, hc, hp, he]

/-- The successful refresh environment, with the token endpoint answering
`invalid_grant` instead. -/
def sampleRefreshEnvIG : RefreshEnv :=
  { sampleRefreshEnvOK with
    tokenPost := .response 200 (.ok (sampleTokenResponse "invalid_grant")) }

/-- Witness for C5 at the concrete `invalid_grant` environment. -/
theorem refreshAccessToken_invalidGrant_witness :
    refreshAccessToken sampleRefreshEnvIG sampleContext =
      { outcome := .ret ""
          (some "Could not login - expired credentials. Please use the login command to refresh your credentials")
        calls := [.authInfoGet, .tokenPost], writes := [] } :=
  refreshAccessToken_invalidGrant sampleRefreshEnvIG sampleContext sampleProvider
    200 (sampleTokenResponse "invalid_grant")
    (by decide) (by decide) rfl (by decide) (by decide) rfl rfl

/-- The successful refresh environment, with the token endpoint answering
`slow_down` instead. -/
def sampleRefreshEnvSD : RefreshEnv :=
  { sampleRefreshEnvOK with
    tokenPost := .response 200 (.ok (sampleTokenResponse "slow_down")) }

/-- C8 counterexample: a refresh response with the non-empty,
non-`authorization_pending` error code `slow_down` is NOT surfaced: the
run returns the stale access token `staleAT` with a nil error. -/
theorem refreshAccessToken_slowDown_swallowed :
    (sampleTokenResponse "slow_down").errorString ≠ "" ∧
    (sampleTokenResponse "slow_down").errorString ≠ "authorization_pending" ∧
    refreshAccessToken sampleRefreshEnvSD sampleContext =
      { outcome := .ret "staleAT" none
        calls := [.authInfoGet, .tokenPost], writes := [] } := by
  refine ⟨by decide, by decide, by decide⟩

/-- C8 as amended: the recognized terminal codes `expired_token`,
`access_denied` and `invalid_grant` each surface an error with no store
write, while any non-empty code outside the five handled cases (such as
`slow_down`) is silently swallowed into a nil-error return of the stale
access token. -/
theorem refreshAccessToken_errorSurfacing (env : RefreshEnv) (ctxt : Context)
    (ap : AuthProvider) (st : Nat) (tr : TokenResponse)
    (hx : ctxt.accessTokenExpiry < env.now)
    (hr : ctxt.refreshToken ≠ "")
    (hd : getLoginInformation env.fetch = .ok ap)
    (ht : ap.tokenURL ≠ "") (hc : ap.clientID ≠ "")
    (hp : env.tokenPost = .response st (.ok tr)) :
    (tr.errorString = "expired_token" ∨ tr.errorString = "access_denied" ∨
        tr.errorString = "invalid_grant" →
      ∃ m, refreshAccessToken env ctxt =
        { outcome := .ret "" (some m)
          calls := [.authInfoGet, .tokenPost], writes := [] }) ∧
    (tr.errorString ∉ ["authorization_pending", "slow_down", "expired_token",
        "access_denied", "invalid_grant", ""] →
      refreshAccessToken env ctxt =
        { outcome := .ret ctxt.accessToken none
          calls := [.authInfoGet, .tokenPost], writes := [] }) ∧
    (tr.errorString = "slow_down" →
      refreshAccessToken env ctxt =
        { outcome := .ret ctxt.accessToken none
          calls := [.authInfoGet, .tokenPost], writes := [] }) := by
  refine ⟨fun he => ?_, fun he => ?_, fun he => ?_⟩
  · rcases he with he | he | he
    · exact ⟨"The login process was not completed in time - please login again",
        by simp [refreshAccessToken, hx, hr, hd, ht, hc, hp, he]⟩
    · exact ⟨"Could not login - access was denied",
        by simp [refreshAccessToken, hx, hr, hd, ht, hc, hp, he]⟩
    · exact ⟨"Could not login - expired credentials. Please use the login command to refresh your credentials",
        by simp [refreshAccessToken, hx, hr, hd, ht, hc, hp, he]⟩
  · simp only [List.mem_cons, List.not_mem_nil, or_false, not_or] at he
    obtain ⟨h1, h2, h3, h4, h5, h6⟩ := he
    simp [refreshAccessToken, hx, hr, hd, ht, hc, hp, h1, h2, h3, h4, h5, h6]
  · simp [refreshAccessToken, hx, hr, hd, ht, hc, hp, he]

/-- The successful refresh environment, with the token endpoint answering
the unrecognized code `server_error`. -/
def sampleRefreshEnvSE : RefreshEnv :=
  { sampleRefreshEnvOK with
    tokenPost := .response 200 (.ok (sampleTokenResponse "server_error")) }

/-- The successful refresh environment, with the token endpoint answering
`expired_token`. -/
def sampleRefreshEnvET : RefreshEnv :=
  { sampleRefreshEnvOK with
    tokenPost := .response 200 (.ok (sampleTokenResponse "expired_token")) }

/-- Witness for the amended C8: `expired_token` surfaces an error while
the unrecognized `server_error` is swallowed. -/
theorem refreshAccessToken_errorSurfacing_witness :
    (∃ m, refreshAccessToken sampleRefreshEnvET sampleContext =
      { outcome := .ret "" (some m)
        calls := [.authInfoGet, .tokenPost], writes := [] }) ∧
    refreshAccessToken sampleRefreshEnvSE sampleContext =
      { outcome := .ret "staleAT" none
        calls := [.authInfoGet, .tokenPost], writes := [] } :=
  ⟨(refreshAccessToken_errorSurfacing sampleRefreshEnvET sampleContext
      sampleProvider 200 (sampleTokenResponse "expired_token")
      (by decide) (by decide) rfl (by decide) (by decide) rfl).1
      (Or.inl rfl),
   (refreshAccessToken_errorSurfacing sampleRefreshEnvSE sampleContext
      sampleProvider 200 (sampleTokenResponse "server_error")
      (by decide) (by decide) rfl (by decide) (by decide) rfl).2.1
      (by decide)⟩

/-- C9: when discovery succeeds but the selected provider has an empty
token URL or an empty client id, `refreshAccessToken` performs no
token-endpoint request, writes nothing, and returns the stale access token
with a nil error. -/
theorem refreshAccessToken_emptyEndpoint (env : RefreshEnv) (ctxt : Context)
    (ap : AuthProvider)
    (hx : ctxt.accessTokenExpiry < env.now)
    (hr : ctxt.refreshToken ≠ "")
    (hd : getLoginInformation env.fetch = .ok ap)
    (hempty : ap.tokenURL = "" ∨ ap.clientID = "") :
    refreshAccessToken env ctxt =
      { outcome := .ret ctxt.accessToken none
        calls := [.authInfoGet], writes := [] } ∧
    NetCall.tokenPost ∉ (refreshAccessToken env ctxt).calls := by
  have hneg : ¬ (ap.tokenURL ≠ "" ∧ ap.clientID ≠ "") := by tauto
  have hmain : refreshAccessToken env ctxt =
      { outcome := .ret ctxt.accessToken none
        calls := [.authInfoGet], writes := [] } := by
    simp [refreshAccessToken, hx, hr, hd, hneg]
  refine ⟨hmain, ?_⟩
  rw [hmain]
  simp

/-- A provider with an empty token URL, and a discovery document serving
it. -/
def sampleProviderNoToken : AuthProvider := { sampleProvider with tokenURL := "" }

/-- A version-1 discovery document whose default provider lacks a token
URL. -/
def sampleDocNoToken : DiscoveryDoc :=
  { fault := false, version := some (.vint 1)
    auth := some { version := "", defaultProviderId := "p1"
                   authProviders := [("p1", sampleProviderNoToken)] } }

/-- The successful refresh environment, with discovery serving the
provider that lacks a token URL. -/
def sampleRefreshEnvNoToken : RefreshEnv :=
  { sampleRefreshEnvOK with fetch := .body sampleDocNoToken }

/-- Witness for C9 at the provider with an empty token URL. -/
theorem refreshAccessToken_emptyEndpoint_witness :
    refreshAccessToken sampleRefreshEnvNoToken sampleContext =
      { outcome := .ret "staleAT" none
        calls := [.authInfoGet], writes := [] } ∧
    NetCall.tokenPost ∉ (refreshAccessToken sampleRefreshEnvNoToken sampleContext).calls :=
  refreshAccessToken_emptyEndpoint sampleRefreshEnvNoToken sampleContext
    sampleProviderNoToken (by decide) (by decide) rfl (Or.inl rfl)

/-- The successful login environment, with an identity token that fails
signature verification. -/
def sampleLoginEnvBadID : LoginEnv :=
  { sampleLoginEnvOK with idToken := .invalid "crypto: verification error" }

/-- C6 counterexample: in the interactive login flow an access token is
already obtained (`AT1` from the successful poll), yet identity-token
verification failure makes the flow abort through `cobra.CheckErr` with no
store write, so the access-token update does NOT proceed. -/
theorem login_idTokenFailure_aborts :
    waitForTokens sampleDeviceCode.interval sampleLoginEnvBadID.pollScript =
      .ok (sampleTokenResponse "") ∧
    (sampleTokenResponse "").accessToken = "AT1" ∧
    login sampleLoginEnvBadID (some sampleContext) =
      { outcome := .abort
          "Cannot parse identity information - Cannot verify ID token - crypto: verification error"
        writes := [] } := by
  refine ⟨by decide, by decide, by decide⟩

/-- C6 as amended: when identity-token verification fails, the refresh
flow leaves the identity fields at their prior persisted values and still
persists and returns the new access token with a nil error; the
interactive login flow instead aborts before any store write, so the
already-obtained access token is not persisted there. -/
theorem idTokenFailure_flows (m : String) :
    (∀ (env : RefreshEnv) (ctxt : Context) (ap : AuthProvider) (st : Nat)
        (tr : TokenResponse),
      ctxt.accessTokenExpiry < env.now →
      ctxt.refreshToken ≠ "" →
      getLoginInformation env.fetch = .ok ap →
      ap.tokenURL ≠ "" → ap.clientID ≠ "" →
      env.tokenPost = .response st (.ok tr) →
      tr.errorString = "" →
      (∀ c : Context, ParseIDToken env.idToken c = (c, some m)) →
      refreshAccessToken env ctxt =
        { outcome := .ret tr.accessToken none
          calls := [.authInfoGet, .tokenPost, .jwksGet]
          writes := [{ ctxt with
            accessToken := tr.accessToken
            accessTokenExpiry := env.now2 + (tr.expiresIn - 10) }] }) ∧
    (∀ (env : LoginEnv) (ctxt : Context) (ap : AuthProvider) (dc : DeviceCode)
        (tr : TokenResponse),
      getLoginInformation env.fetch = .ok ap →
      requestDeviceCode env.deviceCodeResp = .ok dc →
      waitForTokens dc.interval env.pollScript = .ok tr →
      (∀ c : Context, ParseIDToken env.idToken c = (c, some m)) →
      login env (some ctxt) =
        { outcome := .abort ("Cannot parse identity information - " ++ m)
          writes := [] }) := by
  constructor
  · intro env ctxt ap st tr hx hr hd ht hc hp he hfail
    simp [refreshAccessToken, hx, hr, hd, ht, hc, hp, he, hfail]
  · intro env ctxt ap dc tr hd hdc hw hfail
    simp [login, hd, hdc, hw, hfail]

/-- The successful refresh environment, with an identity token that fails
signature verification. -/
def sampleRefreshEnvBadID : RefreshEnv :=
  { sampleRefreshEnvOK with idToken := .invalid "crypto: verification error" }

/-- Witness for the amended C6: with the failing identity token the
refresh run persists only the new access token and expiry (identity fields
of `sampleContext` intact) and the login run aborts without a write. -/
theorem idTokenFailure_flows_witness :
    refreshAccessToken sampleRefreshEnvBadID sampleContext =
      { outcome := .ret "AT1" none
        calls := [.authInfoGet, .tokenPost, .jwksGet]
        writes := [{ sampleContext with
          accessToken := "AT1", accessTokenExpiry := 4590 }] } ∧
    login sampleLoginEnvBadID (some sampleContext) =
      { outcome := .abort
          "Cannot parse identity information - Cannot verify ID token - crypto: verification error"
        writes := [] } := by
  constructor
  · have h := (idTokenFailure_flows
        "Cannot verify ID token - crypto: verification error").1
      sampleRefreshEnvBadID sampleContext sampleProvider 200
      (sampleTokenResponse "") (by decide) (by decide) rfl (by decide)
      (by decide) rfl rfl (fun _ => rfl)
    rw [h]
    decide
  · exact (idTokenFailure_flows
        "Cannot verify ID token - crypto: verification error").2
      sampleLoginEnvBadID sampleContext sampleProvider sampleDeviceCode
      (sampleTokenResponse "") rfl rfl rfl (fun _ => rfl)

/-- C7: a decoded discovery document without a `version` key makes
`getLoginInformation` execute Go `panic(1)` (the error return after it is
dead code), while transport failure, a fault response, an undecodable
document, and a zero-provider document each return a distinct error
value. -/
theorem getLoginInformation_missingVersion :
    getLoginInformation (.body { fault := false, version := none, auth := none }) =
      .goPanic 1 ∧
    getLoginInformation (.transportError "connection refused") =
      .err "Cannot request login info - connection refused" ∧
    getLoginInformation .decodeError = .err "unknown response from Login Service" ∧
    getLoginInformation (.body { fault := true, version := none, auth := none }) =
      .err "login service has returned a fault" ∧
    getLoginInformation
      (.body { fault := false, version := some (.vint 1),
               auth := some { version := "", defaultProviderId := "p1",
                              authProviders := [] } }) =
      .err "Login Service returned invalid data (No Providers)" := by
  refine ⟨rfl, rfl, rfl, rfl, rfl⟩

/-- `setContextList` splits the context list at the first name match and
replaces exactly that entry, leaving every other element in place. -/
theorem setContextList_replacesFirstMatch (ctxt : Context) :
    ∀ l : List Context, (∃ c ∈ l, c.name = ctxt.name) →
      ∃ l₁ c₀ l₂, l = l₁ ++ c₀ :: l₂ ∧ (∀ x ∈ l₁, x.name ≠ ctxt.name) ∧
        c₀.name = ctxt.name ∧ setContextList ctxt l = some (l₁ ++ ctxt :: l₂) := by
  intro l h
  induction l with
  | nil => simp at h
  | cons c rest ih =>
    by_cases hc : c.name = ctxt.name
    · exact ⟨[], c, rest, rfl, by simp, hc, by simp [setContextList, hc]⟩
    · have hrest : ∃ x ∈ rest, x.name = ctxt.name := by
        obtain ⟨x, hx, hn⟩ := h
        rcases List.mem_cons.mp hx with rfl | hmem
        · exact absurd hn hc
        · exact ⟨x, hmem, hn⟩
      obtain ⟨l₁, c₀, l₂, hsplit, hnone, hname, hset⟩ := ih hrest
      refine ⟨c :: l₁, c₀, l₂, by rw [hsplit]; rfl, ?_, hname, ?_⟩
      · intro x hx
        rcases List.mem_cons.mp hx with rfl | hmem
        · exact hc
        · exact hnone x hmem
      · simp [setContextList, hc, hset]

/-- C10: when some entry of the configuration has the context's name,
`SetContext` overwrites only the first such entry: the entries before it
(none of which match), the entries after it, the active-context field and
the config version field are all written back unchanged. -/
theorem SetContext_overwritesOnlyMatch (config : Config) (ctxt : Context)
    (h : ∃ c ∈ config.contexts, c.name = ctxt.name) :
    ∃ l₁ c₀ l₂,
      config.contexts = l₁ ++ c₀ :: l₂ ∧
      (∀ x ∈ l₁, x.name ≠ ctxt.name) ∧
      c₀.name = ctxt.name ∧
      SetContext ctxt config =
        some { version := config.version
               activeContext := config.activeContext
               contexts := l₁ ++ ctxt :: l₂ } := by
  obtain ⟨l₁, c₀, l₂, hsplit, hnone, hname, hset⟩ :=
    setContextList_replacesFirstMatch ctxt config.contexts h
  exact ⟨l₁, c₀, l₂, hsplit, hnone, hname, by simp [SetContext, hset]⟩

/-- A second persisted context, under a different name. -/
def sampleContextB : Context :=
  { sampleContext with name := "prod", accessToken := "prodAT" }

/-- A configuration holding the two sample contexts, with `dev` active. -/
def sampleConfig : Config :=
  { version := "v1", activeContext := "dev"
    contexts := [sampleContextB, sampleContext] }

/-- The `dev` context with a new access token, to be written back. -/
def sampleUpdatedContext : Context :=
  { sampleContext with accessToken := "newAT" }

/-- Witness for C10 at the concrete two-context configuration. -/
theorem SetContext_overwritesOnlyMatch_witness :
    (∃ c ∈ sampleConfig.contexts, c.name = sampleUpdatedContext.name) ∧
    (∃ l₁ c₀ l₂,
      sampleConfig.contexts = l₁ ++ c₀ :: l₂ ∧
      (∀ x ∈ l₁, x.name ≠ sampleUpdatedContext.name) ∧
      c₀.name = sampleUpdatedContext.name ∧
      SetContext sampleUpdatedContext sampleConfig =
        some { version := sampleConfig.version
               activeContext := sampleConfig.activeContext
               contexts := l₁ ++ sampleUpdatedContext :: l₂ }) :=
  ⟨⟨sampleContext, by decide, rfl⟩,
   SetContext_overwritesOnlyMatch sampleConfig sampleUpdatedContext
     ⟨sampleContext, by decide, rfl⟩⟩
